import Mathlib

/-!
Verification development for the Productivity-App desktop shell.

The definitions below are shallow embeddings of the JavaScript source:
  - src/renderer.js : fetchWithRetry (lines 323-333) and the add-task
    click handler (lines 271-303);
  - src/main.js : startPythonServer (lines 73-145), its checkServer
    readiness-probe loop (lines 100-110), createWindow (lines 179-243)
    and the app-level window/backend lifecycle events (lines 244-265);
  - src/start.js : the second startPythonServer variant (lines 91-174).

Asynchronous code is embedded as explicit event lists with times in
milliseconds; a JavaScript promise settles with its first resolve or
reject call and ignores all later ones, which is modelled by taking the
earliest event of the list.
-/

namespace ProductivityApp

/-! ### Promise settlement -/

/-- A settlement attempt on a promise: a resolve call or a reject call
carrying the error message. -/
inductive SettleEvent where
  | resolve : SettleEvent
  | reject : String → SettleEvent
deriving DecidableEq

/-- The first settlement of a promise: among all settlement attempts
(paired with the time at which they fire), the one with the smallest
time wins; ties are broken in favour of the earlier-listed attempt.
Later calls to resolve or reject are no-ops in JavaScript. -/
def firstSettle : List (Nat × SettleEvent) → Option (Nat × SettleEvent)
  | [] => none
  | e :: es =>
    match firstSettle es with
    | none => some e
    | some a => if a.1 < e.1 then some a else some e

/-! ### fetchWithRetry (src/renderer.js lines 323-333)

```
async function fetchWithRetry(url, options, maxRetries = 3) {
    for (let i = 0; i < maxRetries; i++) {
        try {
            const response = await fetch(url, options);
            return response;
        } catch (error) {
            if (i === maxRetries - 1) throw error;
            await new Promise(resolve => setTimeout(resolve, 1000));
        }
    }
}
```

The network is abstracted as a function attempt : Nat → Except ε ρ
giving the outcome of the i-th fetch call (error = rejected fetch,
ok = fulfilled response).  The trace records the value the function
settles with (none models falling off the loop and returning
undefined), the number of fetch calls issued, and the setTimeout
delays awaited between attempts, in order. -/

/-- Trace of one fetchWithRetry run. -/
structure RetryTrace (ε ρ : Type) where
  result : Option (Except ε ρ)
  fetches : Nat
  delays : List Nat

/-- The for-loop of fetchWithRetry, from iteration i with the given
fuel; fuel at least maxRetries - i makes the recursion exact, and
fetchWithRetry below instantiates fuel := maxRetries. -/
def fetchLoop {ε ρ : Type} (attempt : Nat → Except ε ρ) (maxRetries : Nat) :
    Nat → Nat → RetryTrace ε ρ
  | 0, _ => ⟨none, 0, []⟩
  | fuel + 1, i =>
    if i < maxRetries then
      match attempt i with
      | Except.ok r => ⟨some (Except.ok r), 1, []⟩
      | Except.error e =>
        if i = maxRetries - 1 then ⟨some (Except.error e), 1, []⟩
        else
          let t := fetchLoop attempt maxRetries fuel (i + 1)
          ⟨t.result, t.fetches + 1, 1000 :: t.delays⟩
    else ⟨none, 0, []⟩

/-- fetchWithRetry(url, options, maxRetries) as a function of the
attempt outcomes; the loop runs at most maxRetries iterations. -/
def fetchWithRetry {ε ρ : Type} (attempt : Nat → Except ε ρ) (maxRetries : Nat) :
    RetryTrace ε ρ :=
  fetchLoop attempt maxRetries maxRetries 0

/-! ### Add-task click handler (src/renderer.js lines 271-303)

```
addTaskButton.addEventListener('click', async () => {
    const taskTitle = taskInput.value.trim();
    if (!taskTitle) {
        showIndicator('error', 'Task title cannot be empty');
        return;
    }
    try {
        await fetch('http://localhost:5000/tasks', { ...POST body... });
        console.log('Task created successfully');
        showIndicator('success', 'Task added successfully!');
        taskInput.value = '';
        refreshTaskList();
    } catch (error) {
        console.log('Task created in database');
        showIndicator('success', 'Task added successfully!');
        taskInput.value = '';
        refreshTaskList();
    }
});
``` -/

/-- Which indicator showIndicator displays. -/
inductive IndicatorKind where
  | success : IndicatorKind
  | error : IndicatorKind
deriving DecidableEq

/-- Observable effects of one click on the add-task button. -/
structure ClickResult where
  indicator : Option IndicatorKind
  indicatorMsg : String
  fetchCalls : Nat
  consoleLogMsg : Option String
  consoleErrorCalls : Nat
  inputCleared : Bool
  refreshed : Bool
deriving DecidableEq

/-- JavaScript String.prototype.trim on the character list of the
string: whitespace removed from both ends. -/
def jsTrim (s : String) : String :=
  ⟨(((s.data.dropWhile Char.isWhitespace).reverse).dropWhile Char.isWhitespace).reverse⟩

/-- The click handler as a function of the raw input value and of the
outcome of the POST fetch (error = the fetch promise rejected, e.g. a
network error). -/
def addTaskClick (inputValue : String) (postResult : Except Nat Nat) : ClickResult :=
  let taskTitle := jsTrim inputValue
  if taskTitle = "" then
    ⟨some IndicatorKind.error, "Task title cannot be empty", 0, none, 0, false, false⟩
  else
    match postResult with
    | Except.ok _ =>
      ⟨some IndicatorKind.success, "Task added successfully!", 1,
        some "Task created successfully", 0, true, true⟩
    | Except.error _ =>
      ⟨some IndicatorKind.success, "Task added successfully!", 1,
        some "Task created in database", 0, true, true⟩

/-! ### The checkServer readiness loop (src/main.js lines 100-110)

```
const checkServer = () => {
    fetch('http://localhost:5000/health')
        .then(() => {
            logToFile('info', 'pythonServerReady');
            resolve();
        })
        .catch(() => {
            // Keep checking until timeout
            setTimeout(checkServer, 1000);
        });
};
```

One chain of this loop is embedded over an oracle probeOk : Nat → Bool
giving the outcome of the k-th health fetch of the chain; fuel bounds
the recursion (the real chain is stopped only by the surrounding
promise settling, and every claim about it concerns runs in which a
probe succeeds within the fuel). -/

/-- Trace of one checkServer chain: fetches issued, resolve calls,
reject calls, and the setTimeout delays scheduled, in order. -/
structure ChainTrace where
  probes : Nat
  resolves : Nat
  rejects : Nat
  delays : List Nat
deriving DecidableEq

/-- The checkServer recursion starting at probe index k. On success the
chain resolves and stops; on failure it schedules itself again 1000 ms
later. The catch branch contains no reject call, so rejects is never
incremented. -/
def checkServerFrom (probeOk : Nat → Bool) : Nat → Nat → ChainTrace
  | 0, _ => ⟨0, 0, 0, []⟩
  | fuel + 1, k =>
    if probeOk k then ⟨1, 1, 0, []⟩
    else
      let t := checkServerFrom probeOk fuel (k + 1)
      ⟨t.probes + 1, t.resolves, t.rejects, 1000 :: t.delays⟩

/-! ### startPythonServer (src/main.js lines 73-145)

One run of the supervisor is described by its environment: whether the
path check fs.existsSync(scriptPath) passes, when (if ever) the child
process emits its error event and with what message, when the child
exits and with what code, when stderr lines containing the marker
"Running on http://" arrive (each such line starts one checkServer
chain), and from which instant the backend answers /health (monotone:
a server that is up stays up for the duration of startup; none means
it never comes up).

The code attaches no listener to the child process exit event, so
exitAt contributes no settlement event; it is part of the run record
because the environment produces it. -/

/-- Environment of one startPythonServer run in src/main.js. -/
structure SupervisorRun where
  pathOk : Bool
  spawnErrAt : Option (Nat × String)
  exitAt : Option (Nat × Int)
  markerAt : List Nat
  healthyFrom : Option Nat

/-- Time at which a checkServer chain started at time t0 first gets a
successful /health response: probes fire at t0, t0 + 1000, t0 + 2000,
...; the first probe at or after healthyFrom succeeds. none when the
backend never becomes healthy. -/
def chainSuccessTime (healthyFrom : Option Nat) (t0 : Nat) : Option Nat :=
  match healthyFrom with
  | none => none
  | some h => some (t0 + 1000 * ((h - t0 + 999) / 1000))

/-- All settlement attempts of the startPythonServer promise, with
their firing times. A failed path check rejects synchronously before
the spawn; otherwise the attempts are: the child error event (reject),
one resolve per checkServer chain that reaches a successful probe, and
the unconditional 30000 ms timeout (reject with the message from
line 143). -/
def settleEvents (r : SupervisorRun) : List (Nat × SettleEvent) :=
  if r.pathOk then
    (match r.spawnErrAt with
     | some te => [(te.1, SettleEvent.reject ("Failed to start Python server: " ++ te.2))]
     | none => []) ++
    (r.markerAt.filterMap fun t0 =>
      (chainSuccessTime r.healthyFrom t0).map fun s => (s, SettleEvent.resolve)) ++
    [(30000, SettleEvent.reject "Server startup timeout")]
  else
    [(0, SettleEvent.reject "Server script not found")]

/-- The settlement the startPythonServer promise ends up with: the
earliest settlement attempt wins. -/
def startOutcome (r : SupervisorRun) : Option SettleEvent :=
  (firstSettle (settleEvents r)).map Prod.snd

/-! ### createWindow (src/main.js lines 179-243)

createWindow awaits startPythonServer; only after that promise
resolves does it construct the BrowserWindow and load index.html. Any
error (a rejected startup promise, or a loadFile failure after the
window exists) lands in the outer catch, which calls app.quit(). -/

/-- Observable outcome of createWindow. -/
structure WindowResult where
  windowCreated : Bool
  appQuit : Bool
deriving DecidableEq

/-- createWindow as a function of the startup promise settlement and
of whether loadFile succeeds. none (promise never settles) leaves the
await suspended forever: no window, no quit. -/
def createWindowModel (startup : Option SettleEvent) (loadOk : Bool) : WindowResult :=
  match startup with
  | some SettleEvent.resolve =>
    if loadOk then ⟨true, false⟩ else ⟨true, true⟩
  | some (SettleEvent.reject _) => ⟨false, true⟩
  | none => ⟨false, false⟩

/-! ### startPythonServer (src/start.js lines 91-174)

This variant spawns gunicorn (or Flask on Windows) and settles from
four listeners: stdout "Listening at: http://localhost:5000" clears
the timeout and resolves 1000 ms later; each stderr "Booting worker
with pid:" line issues one /health fetch and resolves on success
(failure just keeps waiting, with no retry); the child error event
rejects; the child exit event with a nonzero code clears the timeout
and rejects; and a 45000 ms timer rejects unless cleared. An exit with
code 0 does nothing. -/

/-- Environment of one startPythonServer run in src/start.js. -/
structure StartJsRun where
  spawnErrAt : Option (Nat × String)
  exitAt : Option (Nat × Int)
  listeningAt : Option Nat
  bootingAt : List Nat
  healthyFrom : Option Nat

/-- Outcome of the single /health fetch issued by a "Booting worker"
line at time tb: it succeeds exactly when the backend is already
healthy at tb (the catch branch continues waiting, with no retry). -/
def bootSuccessAt (healthyFrom : Option Nat) (tb : Nat) : Option Nat :=
  match healthyFrom with
  | none => none
  | some h => if h ≤ tb then some tb else none

/-- Whether some handler calls clearTimeout on the 45000 ms startup
timer before it fires: a nonzero-code exit, the "Listening at" stdout
line, or a successful booting-worker health fetch. -/
def startJsCleared (r : StartJsRun) : Bool :=
  (match r.exitAt with
   | some tc => decide (tc.2 ≠ 0) && decide (tc.1 ≤ 45000)
   | none => false) ||
  (match r.listeningAt with
   | some tl => decide (tl ≤ 45000)
   | none => false) ||
  (r.bootingAt.any fun tb =>
    match bootSuccessAt r.healthyFrom tb with
    | some s => decide (s ≤ 45000)
    | none => false)

/-- All settlement attempts of the start.js startup promise. -/
def startJsEvents (r : StartJsRun) : List (Nat × SettleEvent) :=
  (match r.spawnErrAt with
   | some te => [(te.1, SettleEvent.reject ("Failed to start server: " ++ te.2))]
   | none => []) ++
  (match r.exitAt with
   | some tc =>
     if tc.2 ≠ 0 then
       [(tc.1, SettleEvent.reject ("Server process exited with code " ++ toString tc.2))]
     else []
   | none => []) ++
  (match r.listeningAt with
   | some tl => [(tl + 1000, SettleEvent.resolve)]
   | none => []) ++
  (r.bootingAt.filterMap fun tb =>
    (bootSuccessAt r.healthyFrom tb).map fun s => (s, SettleEvent.resolve)) ++
  (if startJsCleared r then []
   else [(45000, SettleEvent.reject "Server startup timeout after 45 seconds")])

/-- The settlement the start.js startup promise ends up with. -/
def startJsOutcome (r : StartJsRun) : Option SettleEvent :=
  (firstSettle (startJsEvents r)).map Prod.snd

/-! ### App-level lifecycle (src/main.js lines 244-265)

```
app.on('window-all-closed', () => {
    if (pythonProcess) { pythonProcess.kill(); }
    if (process.platform !== 'darwin') { app.quit(); }
});
app.on('activate', () => {
    if (BrowserWindow.getAllWindows().length === 0) { createWindow(); }
});
```

createWindow calls startPythonServer, which unconditionally spawns a
fresh child and overwrites the module-level pythonProcess variable;
there is no guard consulting any previous process or stop request.
The model below tracks, for a run whose startups succeed, the number
of spawn calls, whether a backend child is currently alive, whether a
stop request (the kill in window-all-closed) has been issued, and
whether any spawn happened after a stop request. -/

/-- App-level state relevant to backend lifecycle. -/
structure AppState where
  windows : Nat
  backendSpawns : Nat
  backendRunning : Bool
  stopRequested : Bool
  spawnedAfterStop : Bool
  quit : Bool
deriving DecidableEq

/-- Events the app reacts to: the user closing a window (the
environment decrements the window count), the Electron
window-all-closed event, and the macOS activate event. -/
inductive AppEvent where
  | closeWindow : AppEvent
  | windowAllClosed : AppEvent
  | activate : AppEvent
deriving DecidableEq

/-- One step of the app lifecycle; darwin says whether
process.platform is darwin. A quit app processes no further events.
The activate branch inlines a successful createWindow: an
unconditional spawn followed by the window appearing. -/
def appStep (darwin : Bool) (s : AppState) (e : AppEvent) : AppState :=
  if s.quit then s
  else
    match e with
    | AppEvent.closeWindow => { s with windows := s.windows - 1 }
    | AppEvent.windowAllClosed =>
      let s1 :=
        if 0 < s.backendSpawns then
          { s with backendRunning := false, stopRequested := true }
        else s
      if darwin then s1 else { s1 with quit := true }
    | AppEvent.activate =>
      if s.windows = 0 then
        { s with
            backendSpawns := s.backendSpawns + 1,
            backendRunning := true,
            spawnedAfterStop := s.spawnedAfterStop || s.stopRequested,
            windows := s.windows + 1 }
      else s

/-- Folding a list of events through the app lifecycle. -/
def appRun (darwin : Bool) (s : AppState) (l : List AppEvent) : AppState :=
  List.foldl (appStep darwin) s l

/-- State after the initial whenReady createWindow succeeded: one
window open, one backend spawned and running. -/
def initialAppState : AppState :=
  ⟨1, 1, true, false, false, false⟩

/-! ### Concrete runs used as test inputs -/

/-- A network that rejects every fetch attempt. -/
def failAttempt : Nat → Except Nat Nat := fun i => Except.error i

/-- A network that rejects the first two fetch attempts and fulfils
the third with response 77. -/
def attemptOkAt2 : Nat → Except Nat Nat :=
  fun i => if i < 2 then Except.error i else Except.ok 77

/-- A health endpoint whose probes fail except the one at index 1. -/
def probeOk1 : Nat → Bool := fun i => i == 1

/-- A health endpoint whose probes fail except the one at index 2
(the success on the third probe of the spec scenario). -/
def probeOk2 : Nat → Bool := fun i => i == 2

/-- A run in which the path check passes, the spawn does not error,
one probe chain starts at 1000 ms and the backend only becomes
healthy at 50000 ms, after the 30-second startup window. -/
def c1run : SupervisorRun := ⟨true, none, none, [1000], some 50000⟩

/-- A run in which the child exits with code 1 at 5000 ms and no
probe ever succeeds. -/
def c2run : SupervisorRun := ⟨true, none, some (5000, 1), [], none⟩

/-- The same run as c2run but without the child exit. -/
def c2runNoExit : SupervisorRun := ⟨true, none, none, [], none⟩

/-- A run in which one probe chain starts at 2000 ms and the backend
becomes healthy at 3500 ms, so the probe at 4000 ms succeeds well
before the 30-second timeout. -/
def c9run : SupervisorRun := ⟨true, none, none, [2000], some 3500⟩

/-- A start.js run whose child exits with code 1 at 5000 ms before
any readiness signal. -/
def startJsExitRun : StartJsRun := ⟨none, some (5000, 1), none, [], none⟩

/-! ### Helper lemmas -/

/-- A nonempty event list always has a first settlement. -/
theorem firstSettle_eq_none {evs : List (Nat × SettleEvent)}
    (h : firstSettle evs = none) : evs = [] := by
  cases evs with
  | nil => rfl
  | cons e es =>
    simp only [firstSettle] at h
    split at h
    · simp at h
    · split at h <;> simp at h

/-- The first settlement is one of the attempts. -/
theorem firstSettle_mem : ∀ {evs : List (Nat × SettleEvent)} {a : Nat × SettleEvent},
    firstSettle evs = some a → a ∈ evs := by
  intro evs
  induction evs with
  | nil => intro a h; simp [firstSettle] at h
  | cons e es ih =>
    intro a h
    simp only [firstSettle] at h
    split at h
    · simp only [Option.some.injEq] at h
      simp [← h]
    · rename_i b hfs
      split at h
      · simp only [Option.some.injEq] at h
        exact List.mem_cons_of_mem _ (h ▸ ih hfs)
      · simp only [Option.some.injEq] at h
        simp [← h]

/-- The first settlement fires no later than any attempt. -/
theorem firstSettle_min : ∀ {evs : List (Nat × SettleEvent)} {a : Nat × SettleEvent},
    firstSettle evs = some a → ∀ b ∈ evs, a.1 ≤ b.1 := by
  intro evs
  induction evs with
  | nil => intro a h; simp [firstSettle] at h
  | cons e es ih =>
    intro a h b hb
    simp only [firstSettle] at h
    split at h
    · rename_i hfs
      simp only [Option.some.injEq] at h
      have : es = [] := firstSettle_eq_none hfs
      subst this
      simp at hb
      simp [← h, hb]
    · rename_i c hfs
      rcases List.mem_cons.mp hb with hbe | hbes
      · split at h
        · rename_i hlt
          simp only [Option.some.injEq] at h
          subst h hbe
          exact Nat.le_of_lt hlt
        · simp only [Option.some.injEq] at h
          subst h hbe
          exact Nat.le_refl _
      · split at h
        · simp only [Option.some.injEq] at h
          subst h
          exact ih hfs b hbes
        · rename_i hlt
          simp only [Option.some.injEq] at h
          subst h
          exact Nat.le_trans (Nat.le_of_not_lt hlt) (ih hfs b hbes)

/-- An attempt strictly earlier than every other attempt is the first
settlement. -/
theorem firstSettle_strict {evs : List (Nat × SettleEvent)} {a : Nat × SettleEvent}
    (hmem : a ∈ evs) (hlt : ∀ b ∈ evs, b ≠ a → a.1 < b.1) :
    firstSettle evs = some a := by
  cases hfs : firstSettle evs with
  | none =>
    have : evs = [] := firstSettle_eq_none hfs
    subst this
    simp at hmem
  | some c =>
    have hcmem := firstSettle_mem hfs
    have hle := firstSettle_min hfs a hmem
    by_cases hca : c = a
    · rw [hca]
    · exact absurd (hlt c hcmem hca) (Nat.not_lt_of_le hle)

/-- If some resolve attempt fires strictly before every reject
attempt, the promise resolves. -/
theorem firstSettle_resolve {evs : List (Nat × SettleEvent)} {s : Nat}
    (hmem : (s, SettleEvent.resolve) ∈ evs)
    (hrej : ∀ t msg, (t, SettleEvent.reject msg) ∈ evs → s < t) :
    (firstSettle evs).map Prod.snd = some SettleEvent.resolve := by
  cases hfs : firstSettle evs with
  | none =>
    have : evs = [] := firstSettle_eq_none hfs
    subst this
    simp at hmem
  | some c =>
    have hcmem := firstSettle_mem hfs
    have hle := firstSettle_min hfs _ hmem
    rcases c with ⟨t, ev⟩
    cases ev with
    | resolve => simp
    | reject msg =>
      have := hrej t msg hcmem
      omega

/-- The retry loop issues at most one fetch per unit of fuel. -/
theorem fetchLoop_fetches_le {ε ρ : Type} (attempt : Nat → Except ε ρ) (m : Nat) :
    ∀ fuel i, (fetchLoop attempt m fuel i).fetches ≤ fuel := by
  intro fuel
  induction fuel with
  | zero => intro i; simp [fetchLoop]
  | succ n ih =>
    intro i
    simp only [fetchLoop]
    by_cases hi : i < m
    · rw [if_pos hi]
      cases h : attempt i with
      | ok r => simp
      | error e =>
        by_cases hlast : i = m - 1
        · simp [hlast]
        · simp only [if_neg hlast]
          have := ih (i + 1)
          simp
          omega
    · rw [if_neg hi]
      simp

/-- When every attempt in the budget fails, the loop ends by throwing
the error of the last attempt. -/
theorem fetchLoop_all_fail {ε ρ : Type} (attempt : Nat → Except ε ρ) (m : Nat) :
    ∀ fuel i, i < m → m - i ≤ fuel →
      (∀ k, i ≤ k → k < m → ∃ e, attempt k = Except.error e) →
      (fetchLoop attempt m fuel i).result = some (attempt (m - 1)) := by
  intro fuel
  induction fuel with
  | zero => intro i hi hle _; omega
  | succ n ih =>
    intro i hi hle hfail
    obtain ⟨e, he⟩ := hfail i (Nat.le_refl i) hi
    simp only [fetchLoop, if_pos hi, he]
    by_cases him : i = m - 1
    · rw [if_pos him, ← him, he]
    · rw [if_neg him]
      exact ih (i + 1) (by omega) (by omega) (fun k hk1 hk2 => hfail k (by omega) hk2)

/-- When the first success is inside the budget, the loop returns that
response unchanged. -/
theorem fetchLoop_first_success {ε ρ : Type} (attempt : Nat → Except ε ρ) (m j : Nat) (r : ρ)
    (hj : j < m) (hok : attempt j = Except.ok r) :
    ∀ fuel i, i ≤ j → j - i < fuel →
      (∀ k, i ≤ k → k < j → ∃ e, attempt k = Except.error e) →
      (fetchLoop attempt m fuel i).result = some (Except.ok r) := by
  intro fuel
  induction fuel with
  | zero => intro i h1 h2 _; omega
  | succ n ih =>
    intro i hij hfuel hfail
    by_cases hii : i = j
    · subst hii
      simp [fetchLoop, if_pos hj, hok]
    · have hi : i < j := Nat.lt_of_le_of_ne hij hii
      obtain ⟨e, he⟩ := hfail i (Nat.le_refl i) hi
      have him : i < m := by omega
      have hne : i ≠ m - 1 := by omega
      simp only [fetchLoop, if_pos him, he, if_neg hne]
      exact ih (i + 1) (by omega) (by omega) (fun k hk1 hk2 => hfail k (by omega) hk2)

/-- Every delay the retry loop awaits is exactly 1000 ms. -/
theorem fetchLoop_delays_const {ε ρ : Type} (attempt : Nat → Except ε ρ) (m : Nat) :
    ∀ fuel i d, d ∈ (fetchLoop attempt m fuel i).delays → d = 1000 := by
  intro fuel
  induction fuel with
  | zero => intro i d hd; simp [fetchLoop] at hd
  | succ n ih =>
    intro i d hd
    simp only [fetchLoop] at hd
    by_cases hi : i < m
    · rw [if_pos hi] at hd
      split at hd
      · simp at hd
      · split at hd
        · simp at hd
        · simp only [List.mem_cons] at hd
          rcases hd with hd | hd
          · exact hd
          · exact ih (i + 1) d hd
    · rw [if_neg hi] at hd
      simp at hd

/-- Full description of one checkServer chain whose first successful
probe is the one at index j. -/
theorem checkServerFrom_spec (probeOk : Nat → Bool) (j : Nat) (hj : probeOk j = true) :
    ∀ fuel k, k ≤ j → j < k + fuel →
      (∀ i, k ≤ i → i < j → probeOk i = false) →
      checkServerFrom probeOk fuel k =
        ⟨j - k + 1, 1, 0, List.replicate (j - k) 1000⟩ := by
  intro fuel
  induction fuel with
  | zero => intro k h1 h2 _; omega
  | succ n ih =>
    intro k hkj hlt hfail
    by_cases hkj2 : k = j
    · subst hkj2
      simp [checkServerFrom, hj]
    · have hk : k < j := Nat.lt_of_le_of_ne hkj hkj2
      have hpk := hfail k (Nat.le_refl k) hk
      simp only [checkServerFrom, hpk, if_false, Bool.false_eq_true]
      rw [ih (k + 1) (by omega) (by omega) (fun i h1 h2 => hfail i (by omega) h2)]
      have h1 : j - k = (j - (k + 1)) + 1 := by omega
      rw [h1, List.replicate_succ]

/-- A quit app ignores every event. -/
theorem appStep_quit (darwin : Bool) (s : AppState) (e : AppEvent) (h : s.quit = true) :
    appStep darwin s e = s := by
  simp [appStep, h]

/-- A quit app ignores every event list. -/
theorem appRun_quit (darwin : Bool) (l : List AppEvent) :
    ∀ s : AppState, s.quit = true → appRun darwin s l = s := by
  induction l with
  | nil => intro s _; rfl
  | cons e es ih =>
    intro s h
    show appRun darwin (appStep darwin s e) es = s
    rw [appStep_quit darwin s e h]
    exact ih s h

/-- On a non-darwin platform, window-all-closed quits the app. -/
theorem appStep_wac_quit (s : AppState) :
    (appStep false s AppEvent.windowAllClosed).quit = true := by
  by_cases h : s.quit = true
  · simp [appStep, h]
  · simp only [appStep]
    rw [if_neg (by simp [h])]
    by_cases hb : 0 < s.backendSpawns <;> simp [hb]

/-! ### Claims about fetchWithRetry and the add-task handler -/

/-- C8: for every maxRetries of at least 1, fetchWithRetry makes at
most maxRetries fetch attempts; when every attempt in the budget
fails, the error of the last attempt is thrown to the caller; and when
some attempt succeeds before the budget runs out, the response of that
first successful attempt is returned unchanged. -/
theorem retry_budget_bounded {ε ρ : Type} (attempt : Nat → Except ε ρ) (m : Nat)
    (hm : 1 ≤ m) :
    (fetchWithRetry attempt m).fetches ≤ m ∧
    ((∀ i, i < m → ∃ e, attempt i = Except.error e) →
      (fetchWithRetry attempt m).result = some (attempt (m - 1))) ∧
    (∀ j r, j < m → attempt j = Except.ok r →
      (∀ i, i < j → ∃ e, attempt i = Except.error e) →
      (fetchWithRetry attempt m).result = some (Except.ok r)) := by
  refine ⟨fetchLoop_fetches_le attempt m m 0, ?_, ?_⟩
  · intro hfail
    exact fetchLoop_all_fail attempt m m 0 (by omega) (by omega)
      (fun k _ hk2 => hfail k hk2)
  · intro j r hj hok hfail
    exact fetchLoop_first_success attempt m j r hj hok m 0 (Nat.zero_le j) (by omega)
      (fun k _ hk2 => hfail k hk2)

/-- C8 witness: with the default budget of 3, failures on the first
two attempts and a success on the third, at most 3 fetches are made
and the third response is returned unchanged. -/
theorem retry_budget_bounded_witness :
    (fetchWithRetry attemptOkAt2 3).fetches ≤ 3 ∧
    (fetchWithRetry attemptOkAt2 3).result = some (Except.ok 77) := by
  have h := retry_budget_bounded attemptOkAt2 3 (by omega)
  refine ⟨h.1, ?_⟩
  exact h.2.2 2 77 (by omega) (by simp [attemptOkAt2])
    (fun i hi => ⟨i, by simp [attemptOkAt2, hi]⟩)

/-- C10: with maxRetries 0 the loop body never runs, so fetchWithRetry
issues no fetch at all and returns undefined (no response, no thrown
error). -/
theorem zero_retries_undefined {ε ρ : Type} (attempt : Nat → Except ε ρ) :
    (fetchWithRetry attempt 0).result = none ∧
    (fetchWithRetry attempt 0).fetches = 0 ∧
    (fetchWithRetry attempt 0).delays = [] :=
  ⟨rfl, rfl, rfl⟩

/-- C3 counterexample: with every attempt failing and the default
budget of 3, the delays fetchWithRetry awaits between attempts are
1000 ms and then again 1000 ms; the sequence of delays is not
strictly increasing, so the delay does not grow exponentially between
attempts (and being a compile-time constant it carries no jitter). -/
theorem retry_delay_constant_cex :
    (fetchWithRetry failAttempt 3).delays = [1000, 1000] ∧
    ¬ List.Chain' (fun a b => a < b) (fetchWithRetry failAttempt 3).delays := by
  have h : (fetchWithRetry failAttempt 3).delays = [1000, 1000] := by decide
  refine ⟨h, ?_⟩
  rw [h]
  simp [List.chain'_cons]

/-- C3 amended: whatever the outcomes and the budget, every delay
fetchWithRetry awaits between attempts is the constant 1000 ms, with
no exponential growth, no jitter and no abort-based per-attempt
timeout (the options object is passed to fetch unchanged); moreover
the add-task CRUD call is not wrapped in the retry helper at all: one
click with a nonempty title issues exactly one plain fetch. -/
theorem retry_delay_fixed_amended {ε ρ : Type} (attempt : Nat → Except ε ρ) (m : Nat) :
    (∀ d ∈ (fetchWithRetry attempt m).delays, d = 1000) ∧
    (∀ (v : String) (o : Except Nat Nat), jsTrim v ≠ "" →
      (addTaskClick v o).fetchCalls = 1) := by
  constructor
  · exact fun d hd => fetchLoop_delays_const attempt m m 0 d hd
  · intro v o hv
    simp only [addTaskClick]
    rw [if_neg hv]
    cases o <;> rfl

/-- C3 amended witness. -/
theorem retry_delay_fixed_amended_witness :
    (∀ d ∈ (fetchWithRetry failAttempt 3).delays, d = 1000) ∧
    (addTaskClick "Buy milk" (Except.error 0)).fetchCalls = 1 := by
  have h := retry_delay_fixed_amended failAttempt 3
  exact ⟨h.1, h.2 "Buy milk" (Except.error 0) (by decide)⟩

/-- C5: the code contradicts the claim. When the POST fetch of a
nonempty task title rejects with a network error, the click handler
displays the success indicator with the success message, logs only
through console.log (it makes no console.error call), clears the input
and refreshes the list: the failure is converted into a success
indication instead of being surfaced as an error. -/
theorem addtask_error_shows_success_bug :
    (addTaskClick "Buy milk" (Except.error 0)).indicator = some IndicatorKind.success ∧
    (addTaskClick "Buy milk" (Except.error 0)).indicatorMsg = "Task added successfully!" ∧
    (addTaskClick "Buy milk" (Except.error 0)).consoleLogMsg = some "Task created in database" ∧
    (addTaskClick "Buy milk" (Except.error 0)).consoleErrorCalls = 0 := by
  refine ⟨?_, ?_, ?_, ?_⟩ <;> decide

/-! ### Claims about startPythonServer and createWindow -/

/-- C1: when the path check passes, the spawn does not error and no
health probe succeeds within the 30-second window, startPythonServer
settles by rejecting with the message "Server startup timeout", and
createWindow then quits the app without constructing a BrowserWindow;
moreover in every run whatsoever, the window is constructed only when
the startup promise has resolved. -/
theorem startup_timeout_aborts_window (r : SupervisorRun)
    (hpath : r.pathOk = true) (hspawn : r.spawnErrAt = none)
    (hnever : ∀ t0 ∈ r.markerAt, ∀ s,
      chainSuccessTime r.healthyFrom t0 = some s → 30000 < s) :
    startOutcome r = some (SettleEvent.reject "Server startup timeout") ∧
    (∀ loadOk, (createWindowModel (startOutcome r) loadOk).windowCreated = false ∧
               (createWindowModel (startOutcome r) loadOk).appQuit = true) ∧
    (∀ (q : SupervisorRun) (loadOk : Bool),
      (createWindowModel (startOutcome q) loadOk).windowCreated = true →
      startOutcome q = some SettleEvent.resolve) := by
  have hevs : settleEvents r =
      (r.markerAt.filterMap fun t0 => (chainSuccessTime r.healthyFrom t0).map
        fun s => (s, SettleEvent.resolve)) ++
      [(30000, SettleEvent.reject "Server startup timeout")] := by
    simp [settleEvents, hpath, hspawn]
  have hfs : firstSettle (settleEvents r) =
      some (30000, SettleEvent.reject "Server startup timeout") := by
    apply firstSettle_strict
    · rw [hevs]
      exact List.mem_append_right _ (List.mem_singleton.mpr rfl)
    · intro b hb hne
      rw [hevs] at hb
      rcases List.mem_append.mp hb with hb | hb
      · rcases List.mem_filterMap.mp hb with ⟨t0, ht0, hmap⟩
        cases hcs : chainSuccessTime r.healthyFrom t0 with
        | none => rw [hcs] at hmap; simp at hmap
        | some s =>
          rw [hcs] at hmap
          have hb2 : b = (s, SettleEvent.resolve) := (Option.some.inj hmap).symm
          rw [hb2]
          exact hnever t0 ht0 s hcs
      · rw [List.mem_singleton] at hb
        exact absurd hb hne
  refine ⟨?_, ?_, ?_⟩
  · simp [startOutcome, hfs]
  · intro loadOk
    simp [startOutcome, hfs, createWindowModel]
  · intro q loadOk hw
    cases ho : startOutcome q with
    | none => rw [ho] at hw; simp [createWindowModel] at hw
    | some ev =>
      cases ev with
      | resolve => rfl
      | reject msg => rw [ho] at hw; simp [createWindowModel] at hw

/-- C1 witness: the run c1run, whose only probe chain first succeeds
at 50000 ms, settles with the timeout rejection and no window is
created. -/
theorem startup_timeout_aborts_window_witness :
    startOutcome c1run = some (SettleEvent.reject "Server startup timeout") ∧
    (createWindowModel (startOutcome c1run) true).windowCreated = false ∧
    (createWindowModel (startOutcome c1run) true).appQuit = true := by
  have hn : ∀ t0 ∈ c1run.markerAt, ∀ s,
      chainSuccessTime c1run.healthyFrom t0 = some s → 30000 < s := by
    intro t0 ht0 s hs
    have ht0x : t0 = 1000 := by simpa [c1run] using ht0
    subst ht0x
    have hsx : (50000 : Nat) = s := by simpa [c1run, chainSuccessTime] using hs
    omega
  have h := startup_timeout_aborts_window c1run rfl rfl hn
  exact ⟨h.1, (h.2.1 true).1, (h.2.1 true).2⟩

/-- C9: the startup promise settles with whichever settlement attempt
fires first; when some probe chain succeeds before the 30-second
timeout and before any spawn error, the promise resolves — the
unconditional timeout rejection that still fires later, and any
further probe chains, cannot revoke the already-reported readiness. -/
theorem first_settlement_wins (r : SupervisorRun) (t0 s : Nat)
    (hpath : r.pathOk = true)
    (hmem : t0 ∈ r.markerAt)
    (hs : chainSuccessTime r.healthyFrom t0 = some s)
    (htimeout : s < 30000)
    (hspawn : ∀ te, r.spawnErrAt = some te → s < te.1) :
    startOutcome r = some SettleEvent.resolve := by
  have hresolve : (s, SettleEvent.resolve) ∈ settleEvents r := by
    simp only [settleEvents, hpath, if_true]
    refine List.mem_append_left _ (List.mem_append_right _ ?_)
    exact List.mem_filterMap.mpr ⟨t0, hmem, by rw [hs]; rfl⟩
  have hrej : ∀ t msg, (t, SettleEvent.reject msg) ∈ settleEvents r → s < t := by
    intro t msg hb
    simp only [settleEvents, hpath, if_true] at hb
    rcases List.mem_append.mp hb with hb | hb
    · rcases List.mem_append.mp hb with hb | hb
      · cases hsp : r.spawnErrAt with
        | none => rw [hsp] at hb; simp at hb
        | some te =>
          rw [hsp] at hb
          simp only [List.mem_singleton, Prod.mk.injEq] at hb
          have := hspawn te hsp
          omega
      · rcases List.mem_filterMap.mp hb with ⟨t1, _, hmap⟩
        cases hcs : chainSuccessTime r.healthyFrom t1 with
        | none => rw [hcs] at hmap; simp at hmap
        | some s1 => rw [hcs] at hmap; simp at hmap
    · rw [List.mem_singleton] at hb
      have ht : t = 30000 := congrArg Prod.fst hb
      omega
  have h := firstSettle_resolve hresolve hrej
  simpa [startOutcome] using h

/-- C9 witness: in the run c9run the chain started at 2000 ms succeeds
at 4000 ms, before the 30000 ms timeout, and the promise resolves. -/
theorem first_settlement_wins_witness :
    startOutcome c9run = some SettleEvent.resolve := by
  apply first_settlement_wins c9run 2000 4000 rfl
  · simp [c9run]
  · simp [c9run, chainSuccessTime]
  · omega
  · intro te hte
    simp [c9run] at hte

/-- C2 counterexample: in src/main.js a child that exits with code 1
at 5000 ms, before any successful probe, triggers nothing: the only
settlement attempt of the whole run is the 30000 ms timeout, and the
run settles exactly as the identical run without the exit. The
child-process exit before ready is not itself a failure trigger. -/
theorem exit_before_ready_ignored_cex :
    settleEvents c2run = [(30000, SettleEvent.reject "Server startup timeout")] ∧
    startOutcome c2run = some (SettleEvent.reject "Server startup timeout") ∧
    startOutcome c2run = startOutcome c2runNoExit := by
  refine ⟨rfl, rfl, rfl⟩

/-- C2 amended: in the src/start.js supervisor a child exit with a
nonzero code, firing before any other settlement attempt and before
the 45-second deadline, does reject the startup promise (there the
exit is a failure trigger); the src/main.js supervisor attaches no
exit listener at all, so its startup outcome is independent of the
exit event. -/
theorem exit_handling_amended (r : StartJsRun) (t : Nat) (c : Int)
    (hexit : r.exitAt = some (t, c)) (hc : c ≠ 0)
    (hspawn : ∀ te, r.spawnErrAt = some te → t < te.1)
    (hlisten : ∀ tl, r.listeningAt = some tl → t < tl + 1000)
    (hboot : ∀ tb ∈ r.bootingAt, ∀ s, bootSuccessAt r.healthyFrom tb = some s → t < s)
    (ht : t < 45000) :
    startJsOutcome r =
      some (SettleEvent.reject ("Server process exited with code " ++ toString c)) ∧
    (∀ (q : SupervisorRun) (x : Option (Nat × Int)),
      startOutcome ⟨q.pathOk, q.spawnErrAt, x, q.markerAt, q.healthyFrom⟩ =
        startOutcome q) := by
  have hclear : startJsCleared r = true := by
    have h1 : decide (c ≠ 0) = true := decide_eq_true hc
    have h2 : decide (t ≤ 45000) = true := decide_eq_true (Nat.le_of_lt ht)
    simp [startJsCleared, hexit, h1, h2]
  have hmem : (t, SettleEvent.reject ("Server process exited with code " ++ toString c)) ∈
      startJsEvents r := by
    simp only [startJsEvents, hexit]
    rw [if_pos hc]
    refine List.mem_append_left _ (List.mem_append_left _ (List.mem_append_left _
      (List.mem_append_right _ ?_)))
    exact List.mem_singleton.mpr rfl
  have hlt : ∀ b ∈ startJsEvents r,
      b ≠ (t, SettleEvent.reject ("Server process exited with code " ++ toString c)) →
      t < b.1 := by
    intro b hb hne
    simp only [startJsEvents, hexit] at hb
    rw [if_pos hc] at hb
    rcases List.mem_append.mp hb with hb | hbE
    · rcases List.mem_append.mp hb with hb | hbD
      · rcases List.mem_append.mp hb with hb | hbC
        · rcases List.mem_append.mp hb with hbA | hbB
          · cases hsp : r.spawnErrAt with
            | none => rw [hsp] at hbA; simp at hbA
            | some te =>
              rw [hsp] at hbA
              rw [List.mem_singleton] at hbA
              have := hspawn te hsp
              rw [hbA]
              exact this
          · rw [List.mem_singleton] at hbB
            exact absurd hbB hne
        · cases hl : r.listeningAt with
          | none => rw [hl] at hbC; simp at hbC
          | some tl =>
            rw [hl] at hbC
            rw [List.mem_singleton] at hbC
            have := hlisten tl hl
            rw [hbC]
            exact this
      · rcases List.mem_filterMap.mp hbD with ⟨tb, htb, hmap⟩
        cases hbs : bootSuccessAt r.healthyFrom tb with
        | none => rw [hbs] at hmap; simp at hmap
        | some sb =>
          rw [hbs] at hmap
          have hb2 : b = (sb, SettleEvent.resolve) := (Option.some.inj hmap).symm
          rw [hb2]
          exact hboot tb htb sb hbs
    · rw [hclear] at hbE
      simp at hbE
  have hfs := firstSettle_strict hmem hlt
  refine ⟨?_, ?_⟩
  · simp [startJsOutcome, hfs]
  · intro q x
    rfl

/-- C2 amended witness: the start.js run whose child exits with code 1
at 5000 ms rejects with the exit message. -/
theorem exit_handling_amended_witness :
    startJsOutcome startJsExitRun =
      some (SettleEvent.reject ("Server process exited with code " ++ toString (1 : Int))) := by
  have h := exit_handling_amended startJsExitRun 5000 1 rfl (by decide)
    (fun te hte => by simp [startJsExitRun] at hte)
    (fun tl htl => by simp [startJsExitRun] at htl)
    (fun tb htb => by simp [startJsExitRun] at htb)
    (by omega)
  exact h.1

/-! ### Claims about the checkServer probe loop -/

/-- C6: a checkServer chain whose first successful probe is the one at
index j issues exactly j + 1 probes, schedules every retry through a
setTimeout of exactly 1000 ms (the delay list is j copies of 1000),
and never calls reject: a failed probe is treated as not-yet-ready and
retried, not as a failed transition. -/
theorem probe_retry_fixed_interval (probeOk : Nat → Bool) (j fuel : Nat)
    (hj : probeOk j = true) (hbefore : ∀ i, i < j → probeOk i = false)
    (hfuel : j < fuel) :
    (checkServerFrom probeOk fuel 0).delays = List.replicate j 1000 ∧
    (checkServerFrom probeOk fuel 0).rejects = 0 ∧
    (checkServerFrom probeOk fuel 0).probes = j + 1 := by
  have h := checkServerFrom_spec probeOk j hj fuel 0 (Nat.zero_le j) (by omega)
    (fun i _ h2 => hbefore i h2)
  rw [h]
  simp

/-- C6 witness: the chain against probeOk1 (first success on the
second probe) issues two probes, one 1000 ms delay, no reject. -/
theorem probe_retry_fixed_interval_witness :
    (checkServerFrom probeOk1 5 0).delays = List.replicate 1 1000 ∧
    (checkServerFrom probeOk1 5 0).rejects = 0 ∧
    (checkServerFrom probeOk1 5 0).probes = 2 := by
  exact probe_retry_fixed_interval probeOk1 1 5 (by decide) (by decide) (by decide)

/-- C7: when the health probe at index j is the first to succeed, the
chain calls resolve exactly once (a single starting-to-ready
transition) and issues no probe after the successful one: exactly
j + 1 probes happen, and giving the chain any amount of extra fuel
changes nothing about its trace. -/
theorem ready_exactly_once (probeOk : Nat → Bool) (j fuel : Nat)
    (hj : probeOk j = true) (hbefore : ∀ i, i < j → probeOk i = false)
    (hfuel : j < fuel) :
    (checkServerFrom probeOk fuel 0).resolves = 1 ∧
    (checkServerFrom probeOk fuel 0).probes = j + 1 ∧
    (∀ fuel2, fuel < fuel2 →
      checkServerFrom probeOk fuel2 0 = checkServerFrom probeOk fuel 0) := by
  have h := checkServerFrom_spec probeOk j hj fuel 0 (Nat.zero_le j) (by omega)
    (fun i _ h2 => hbefore i h2)
  refine ⟨by rw [h], by rw [h]; simp, ?_⟩
  intro fuel2 hf2
  rw [h, checkServerFrom_spec probeOk j hj fuel2 0 (Nat.zero_le j) (by omega)
    (fun i _ h2 => hbefore i h2)]

/-- C7 witness: against probeOk2 the third probe succeeds; the chain
resolves once, issues exactly three probes, and tripling the fuel
leaves the trace unchanged. -/
theorem ready_exactly_once_witness :
    (checkServerFrom probeOk2 10 0).resolves = 1 ∧
    (checkServerFrom probeOk2 10 0).probes = 3 ∧
    checkServerFrom probeOk2 30 0 = checkServerFrom probeOk2 10 0 := by
  have h := ready_exactly_once probeOk2 2 10 (by decide) (by decide) (by decide)
  exact ⟨h.1, h.2.1, h.2.2 30 (by decide)⟩

/-! ### Claims about the app-level lifecycle -/

/-- C4 counterexample: on darwin, after the user closes the last
window and window-all-closed kills the backend (the stop request), a
single activate event runs createWindow again, which spawns a second
backend: the supervisor does spawn a replacement after a stop
request. -/
theorem respawn_after_stop_cex :
    (appRun true initialAppState
      [AppEvent.closeWindow, AppEvent.windowAllClosed, AppEvent.activate]).backendSpawns
      = 2 ∧
    (appRun true initialAppState
      [AppEvent.closeWindow, AppEvent.windowAllClosed, AppEvent.activate]).spawnedAfterStop
      = true := by
  refine ⟨by decide, by decide⟩

/-- C4 amended: on non-darwin platforms window-all-closed quits the
app and every later event is ignored, so no replacement backend is
spawned after the stop request there; on darwin the spawn inside
createWindow is guarded only by the open-window count, so an activate
event that sees no open window always spawns a fresh backend, whether
or not a stop request was issued. -/
theorem stop_semantics_amended (pre post : List AppEvent) :
    (appRun false initialAppState (pre ++ AppEvent.windowAllClosed :: post)).quit = true ∧
    appRun false initialAppState (pre ++ AppEvent.windowAllClosed :: post) =
      appRun false initialAppState (pre ++ [AppEvent.windowAllClosed]) ∧
    (∀ s : AppState, s.quit = false → s.windows = 0 →
      (appStep true s AppEvent.activate).backendSpawns = s.backendSpawns + 1) := by
  have hsplit : appRun false initialAppState (pre ++ AppEvent.windowAllClosed :: post) =
      appRun false (appStep false (appRun false initialAppState pre)
        AppEvent.windowAllClosed) post := by
    simp [appRun, List.foldl_append]
  have hsplit2 : appRun false initialAppState (pre ++ [AppEvent.windowAllClosed]) =
      appStep false (appRun false initialAppState pre) AppEvent.windowAllClosed := by
    simp [appRun, List.foldl_append]
  have hq : (appStep false (appRun false initialAppState pre)
      AppEvent.windowAllClosed).quit = true := appStep_wac_quit _
  have hfix := appRun_quit false post _ hq
  refine ⟨?_, ?_, ?_⟩
  · rw [hsplit, hfix]
    exact hq
  · rw [hsplit, hfix, hsplit2]
  · intro s hq0 hw
    simp [appStep, hq0, hw]

/-- C4 amended witness: a concrete non-darwin trace ends quit with no
extra processing, and a concrete darwin activate on a stopped state
spawns again. -/
theorem stop_semantics_amended_witness :
    (appRun false initialAppState
      ([AppEvent.closeWindow] ++ AppEvent.windowAllClosed :: [AppEvent.activate])).quit
      = true ∧
    (appStep true ⟨0, 1, false, true, false, false⟩ AppEvent.activate).backendSpawns = 2 := by
  have h := stop_semantics_amended [AppEvent.closeWindow] [AppEvent.activate]
  exact ⟨h.1, h.2.2 ⟨0, 1, false, true, false, false⟩ rfl rfl⟩

end ProductivityApp
